import Mathlib

/-
  Shallow embedding of the KarlsenMiner plugin-loader library (src/src/lib.rs).

  The library is a host-side loader for dynamically loaded hashing plugins:
  a `PluginManager` holds a list of loaded module images (`loaded_libraries`)
  and a list of `Plugin` trait objects (`plugins`).  Loading a module resolves
  a fixed entry-point symbol `_plugin_create`, transfers ownership of the
  clap `App` (the CLI schema) across the boundary, and receives back the
  extended schema plus a new `Plugin` handle.

  Modelling decisions, each justified by the source:
  - `clap::App` is opaque to the loader (it only round-trips through
    `Box::into_raw` / `Box::from_raw`, which are identity on the value), so
    `Schema` is a concrete value type; entry points transform it by an
    arbitrary function.
  - A `Plugin` trait object has interior mutable state (`process_option`
    takes `&mut self`); it is modelled as a record with a `state` field and
    pure transition functions, so mutation is explicit state passing.
  - Rust panics (`expect`, `unwrap`) are modelled by a dedicated `RunResult`
    outcome `panicked msg st` carrying the panic message and the data state
    at the moment of the panic (what unwinding would observe and tear down);
    `Result<T, E>` return values are modelled by `Except`.
  - The filesystem / dynamic-linker environment is a function from paths to
    `ModuleFile`: a path may fail to open, open without the `_plugin_create`
    symbol, or open with an entry-point function.
-/

/-- `Box<dyn StdError + Send + Sync>`: an opaque error value, modelled as its
message string. -/
abbrev Error := String

/-- `clap::ArgMatches`: opaque to the loader, modelled as a list of parsed
(option name, value) pairs. -/
abbrev ArgMatches := List (String × String)

/-- `clap::App`: the CLI schema builder, opaque to the loader (only handed
across the module boundary and back), modelled as the list of option names
registered so far. -/
abbrev Schema := List String

/-- A `WorkerSpec` trait object: an inert factory description.  The claims
only compare spec values, so it is modelled as an identifying record. -/
structure WorkerSpec where
  specId : Nat
deriving DecidableEq, Repr

/-- A `Plugin` trait object: `name`, `get_worker_specs(&self)` and
`process_option(&mut self, &ArgMatches) -> Result<(), Error>`.  The `&mut`
receiver is modelled by an explicit `state : Nat` field; `process_option`
returns the new state together with its `Result` (mutation and result are
independent in Rust, so both are returned). -/
structure Plugin where
  name : String
  state : Nat
  get_worker_specs : Nat → List WorkerSpec
  process_option : Nat → ArgMatches → Nat × Except Error Unit

/-- A `libloading::Library`: the loaded module image, identified by the path
it was loaded from. -/
structure Library where
  path : String
deriving DecidableEq, Repr

/-- The `PluginManager` struct: the plugin list and the loaded module list. -/
structure PluginManager where
  plugins : List Plugin
  loaded_libraries : List Library

/-- `PluginManager::new`. -/
def PluginManager.new : PluginManager :=
  { plugins := [], loaded_libraries := [] }

/-- What the dynamic-linker environment holds at a path: the open can fail
(`Library::new` returns `Err`), succeed without the `_plugin_create` symbol
(`lib.get` returns `Err`), or succeed with an entry-point function of the
fixed signature `(SchemaHandle) -> (SchemaHandle, PluginHandle)`. -/
inductive ModuleFile where
  | cannotOpen
  | noEntryPoint
  | withEntry (entry : Schema → Schema × Plugin)

/-- Outcome of running a piece of Rust code that can panic: either a panic
with its message and the data state `st` observable at the panic, or a
normal return value. -/
inductive RunResult (σ : Type) (α : Type) where
  | panicked (msg : String) (st : σ)
  | ok (val : α)

/-- Discriminator: did the run end in a panic? -/
def RunResult.isPanic {σ α : Type} : RunResult σ α → Bool
  | .panicked _ _ => true
  | .ok _ => false

/-- `PluginManager::load_single_plugin(&mut self, app, path)`, faithful to the
source order of effects:
1. `Library::new(path).expect("Unable to load the plugin")` — panic on open
   failure, manager unchanged;
2. `self.loaded_libraries.push(lib)`;
3. `lib.get(b"_plugin_create").expect(...)` — panic on missing symbol, with
   the library already pushed;
4. call the constructor on the boxed schema (`Box::into_raw`/`from_raw` are
   identity on the value), push the returned plugin, return `Ok(app)`.
The panic state carries the manager and the schema value at the panic (the
local `app` has not yet been transformed on either failure path). -/
def PluginManager.load_single_plugin (self : PluginManager) (app : Schema)
    (path : String) (env : String → ModuleFile) :
    RunResult (PluginManager × Schema) (PluginManager × Except Error Schema) :=
  match env path with
  | .cannotOpen =>
      .panicked "Unable to load the plugin" (self, app)
  | .noEntryPoint =>
      .panicked "The _plugin_create symbol was not found."
        ({ self with loaded_libraries := self.loaded_libraries ++ [⟨path⟩] }, app)
  | .withEntry entry =>
      let self1 : PluginManager :=
        { self with loaded_libraries := self.loaded_libraries ++ [⟨path⟩] }
      let self2 : PluginManager :=
        { self1 with plugins := self1.plugins ++ [(entry app).2] }
      .ok (self2, Except.ok (entry app).1)

/-- `PluginManager::build(&self)`: `Ok(self.plugins.last().unwrap().get_worker_specs())`.
`last()` on an empty vector is `None`, so `unwrap` panics; otherwise the
result is the last plugin's specs.  `&self` never mutates the manager, so the
panic state is `Unit`. -/
def PluginManager.build (self : PluginManager) :
    RunResult Unit (Except Error (List WorkerSpec)) :=
  match self.plugins.getLast? with
  | none => .panicked "called Option::unwrap() on a None value" ()
  | some plugin => .ok (Except.ok (plugin.get_worker_specs plugin.state))

/-- The `for_each` loop body of `PluginManager::process_options`: each plugin
in order runs `plugin.process_option(matchs).expect("Could not process option
for plugin {name}")`.  The plugin is mutated (its state updated) whether or
not its result is an error; on the first `Err` the loop panics, carrying the
plugin list as mutated so far. -/
def process_options_loop (matchs : ArgMatches) :
    List Plugin → RunResult (List Plugin) (List Plugin)
  | [] => .ok []
  | plugin :: rest =>
    let plugin1 : Plugin :=
      { plugin with state := (plugin.process_option plugin.state matchs).1 }
    match (plugin.process_option plugin.state matchs).2 with
    | .error _ =>
        .panicked ("Could not process option for plugin " ++ plugin.name)
          (plugin1 :: rest)
    | .ok _ =>
        match process_options_loop matchs rest with
        | .panicked msg sts => .panicked msg (plugin1 :: sts)
        | .ok sts => .ok (plugin1 :: sts)

/-- `PluginManager::process_options(&mut self, matchs)`: runs the loop over
`self.plugins` and, when no plugin failed, returns `Ok(())` together with the
mutated manager. -/
def PluginManager.process_options (self : PluginManager) (matchs : ArgMatches) :
    RunResult PluginManager (PluginManager × Except Error Unit) :=
  match process_options_loop matchs self.plugins with
  | .panicked msg sts =>
      .panicked msg { self with plugins := sts }
  | .ok sts =>
      .ok ({ self with plugins := sts }, Except.ok ())

/-- The `for path in paths` loop of `load_plugins`: threads the schema and
the manager through `load_single_plugin`, propagating an `Err` with `?`
(dead code in practice, since `load_single_plugin` only ever panics or
returns `Ok`). -/
def load_plugins_loop (env : String → ModuleFile) (app : Schema)
    (factory : PluginManager) :
    List String → RunResult (PluginManager × Schema) (Except Error (Schema × PluginManager))
  | [] => .ok (Except.ok (app, factory))
  | path :: rest =>
    match factory.load_single_plugin app path env with
    | .panicked msg st => .panicked msg st
    | .ok (_, Except.error e) => .ok (Except.error e)
    | .ok (factory1, Except.ok app1) => load_plugins_loop env app1 factory1 rest

/-- `load_plugins(app, paths)`: starts from `PluginManager::new()` and loads
every path in order, returning the final schema and the manager. -/
def load_plugins (env : String → ModuleFile) (app : Schema) (paths : List String) :
    RunResult (PluginManager × Schema) (Except Error (Schema × PluginManager)) :=
  load_plugins_loop env app PluginManager.new paths

/-- The entry point generated by the `declare_plugin!` helper: the generated
`_plugin_create` calls the user constructor exactly once, boxes the object
behind the `Plugin` capability, augments the incoming schema with the
module's declared option set (`$args::augment_args`), and returns the raw
pair (boxing is identity on the values). -/
def declare_plugin (constructor : Unit → Plugin) (augment_args : Schema → Schema) :
    Schema → Schema × Plugin :=
  fun app => (augment_args app, constructor ())

/-! ### Helper lemmas -/

/-- The last element of `l ++ [a]` is `a`. -/
theorem getLast?_append_singleton {α : Type} (l : List α) (a : α) :
    (l ++ [a]).getLast? = some a := by
  induction l with
  | nil => rfl
  | cons x xs ih =>
      rw [List.cons_append]
      cases xs with
      | nil => rfl
      | cons y ys => simp [List.getLast?]

/-! ### Claim C9 -/

/-- Claim C9: calling `build` on a `PluginManager` that has loaded no plugins
panics (the `unwrap` of `None` returned by `last()` on the empty plugin
vector), rather than returning a `Result` error or an empty list. -/
theorem build_empty_panics (libs : List Library) :
    (PluginManager.mk [] libs).build
      = RunResult.panicked "called Option::unwrap() on a None value" () := rfl

/-! ### Claim C10 -/

/-- Claim C10: `process_options` never returns an `Err` value despite its
`Result` return type: either the run panics (a plugin's `process_option`
returned `Err` and `expect` aborted the process), or it returns `Ok(())`. -/
theorem process_options_never_err (pm : PluginManager) (matchs : ArgMatches) :
    (∃ msg st, pm.process_options matchs = RunResult.panicked msg st) ∨
    (∃ st, pm.process_options matchs = RunResult.ok (st, Except.ok ())) := by
  unfold PluginManager.process_options
  cases h : process_options_loop matchs pm.plugins with
  | panicked msg sts => exact Or.inl ⟨msg, _, rfl⟩
  | ok sts => exact Or.inr ⟨_, rfl⟩

/-! ### Claim C1 -/

/-- Claim C1: on a manager with two or more loaded plugins, `build` returns
exactly the worker specs of the most recently loaded (last) plugin, and the
result is identical to what `build` returns on a manager holding the last
plugin alone — the earlier plugins contribute nothing (their
`get_worker_specs` is never consulted). -/
theorem build_last_plugin_only (ps : List Plugin) (p : Plugin) (libs : List Library)
    (h : ps ≠ []) :
    (PluginManager.mk (ps ++ [p]) libs).build
        = RunResult.ok (Except.ok (p.get_worker_specs p.state)) ∧
    (PluginManager.mk (ps ++ [p]) libs).build
        = (PluginManager.mk [p] libs).build := by
  have hlast : (ps ++ [p]).getLast? = some p := getLast?_append_singleton ps p
  constructor
  · simp only [PluginManager.build, hlast]
  · simp only [PluginManager.build, hlast]
    rfl

/-- Witness for C1 at a concrete input: two plugins loaded, `build` returns
the second plugin's specs only. -/
theorem build_last_plugin_only_witness :
    ([Plugin.mk "A" 0 (fun _ => [⟨10⟩]) (fun s _ => (s, Except.ok ()))] ≠
        ([] : List Plugin)) ∧
    (PluginManager.mk
        ([Plugin.mk "A" 0 (fun _ => [⟨10⟩]) (fun s _ => (s, Except.ok ()))] ++
          [Plugin.mk "B" 0 (fun _ => [⟨20⟩, ⟨21⟩]) (fun s _ => (s, Except.ok ()))])
        []).build
      = RunResult.ok (Except.ok [⟨20⟩, ⟨21⟩]) :=
  ⟨by simp, by
    have h := build_last_plugin_only
      [Plugin.mk "A" 0 (fun _ => [⟨10⟩]) (fun s _ => (s, Except.ok ()))]
      (Plugin.mk "B" 0 (fun _ => [⟨20⟩, ⟨21⟩]) (fun s _ => (s, Except.ok ())))
      [] (by simp)
    exact h.1⟩

/-! ### Claim C2 -/

/-- Does a `load_single_plugin` run end with an `Err` result value (as the
claim's `LoadError` design would require)? -/
def load_returns_err
    (r : RunResult (PluginManager × Schema) (PluginManager × Except Error Schema)) :
    Bool :=
  match r with
  | .ok (_, .error _) => true
  | _ => false

/-- A concrete linker environment for the C2 counterexample: the path "bad"
fails to open, the path "nosym" opens but exports no `_plugin_create`. -/
def envFailC2 : String → ModuleFile :=
  fun path => if path = "bad" then .cannotOpen else .noEntryPoint

/-- Counterexample to claim C2 as stated: at the concrete paths "bad"
(module cannot be opened) and "nosym" (registration symbol absent), loading
ends in a panic — `Library::new(path).expect(...)` and
`lib.get(b"_plugin_create").expect(...)` abort the process — and in neither
case is any `Result` error value (`LoadError::CannotOpen` or
`LoadError::MissingEntryPoint`) returned to the caller. -/
theorem load_error_counterexample :
    (PluginManager.new.load_single_plugin [] "bad" envFailC2).isPanic = true ∧
    load_returns_err (PluginManager.new.load_single_plugin [] "bad" envFailC2) = false ∧
    (PluginManager.new.load_single_plugin [] "nosym" envFailC2).isPanic = true ∧
    load_returns_err (PluginManager.new.load_single_plugin [] "nosym" envFailC2) = false :=
  ⟨rfl, rfl, rfl, rfl⟩

/-- Claim C2 amended: for every module path, if opening the dynamic module
fails then loading panics with message "Unable to load the plugin", and if
the module opens but the fixed-name registration symbol is absent then
loading panics with the missing-symbol message; in both cases the failure is
a panic that aborts the process, and no `Result` error is surfaced to the
caller. -/
theorem load_failure_panics (pm : PluginManager) (app : Schema) (path : String)
    (env : String → ModuleFile) :
    (env path = ModuleFile.cannotOpen →
      pm.load_single_plugin app path env
        = RunResult.panicked "Unable to load the plugin" (pm, app)) ∧
    (env path = ModuleFile.noEntryPoint →
      pm.load_single_plugin app path env
        = RunResult.panicked "The _plugin_create symbol was not found."
            ({ pm with loaded_libraries := pm.loaded_libraries ++ [⟨path⟩] }, app)) ∧
    load_returns_err (pm.load_single_plugin app path env) = false := by
  refine ⟨fun h => ?_, fun h => ?_, ?_⟩
  · simp only [PluginManager.load_single_plugin, h]
  · simp only [PluginManager.load_single_plugin, h]
  · cases h : env path <;>
      simp only [PluginManager.load_single_plugin, h, load_returns_err]

/-- Witness for C2's amended claim at concrete inputs: both failure modes of
`envFailC2` produce the stated panics. -/
theorem load_failure_panics_witness :
    envFailC2 "bad" = ModuleFile.cannotOpen ∧
    envFailC2 "nosym" = ModuleFile.noEntryPoint ∧
    PluginManager.new.load_single_plugin ["opt0"] "bad" envFailC2
      = RunResult.panicked "Unable to load the plugin" (PluginManager.new, ["opt0"]) ∧
    PluginManager.new.load_single_plugin ["opt0"] "nosym" envFailC2
      = RunResult.panicked "The _plugin_create symbol was not found."
          (PluginManager.mk [] [⟨"nosym"⟩], ["opt0"]) :=
  ⟨rfl, rfl,
    (load_failure_panics PluginManager.new ["opt0"] "bad" envFailC2).1 rfl,
    (load_failure_panics PluginManager.new ["opt0"] "nosym" envFailC2).2.1 rfl⟩

/-! ### Claim C3 -/

/-- Claim C3: for every schema and every module whose registration symbol is
missing, the failed load leaves the schema unchanged: the schema value
observable at the failure (the panic state) is exactly the schema passed in —
the entry point is never invoked, so no partial mutation happens on the
error path. -/
theorem failed_load_leaves_schema_unchanged (pm : PluginManager) (app : Schema)
    (path : String) (env : String → ModuleFile)
    (h : env path = ModuleFile.noEntryPoint) :
    pm.load_single_plugin app path env
      = RunResult.panicked "The _plugin_create symbol was not found."
          ({ pm with loaded_libraries := pm.loaded_libraries ++ [⟨path⟩] }, app) := by
  simp only [PluginManager.load_single_plugin, h]

/-- Witness for C3 at a concrete input: a failed load of "nosym" with a
two-option schema keeps that schema intact in the panic state. -/
theorem failed_load_leaves_schema_unchanged_witness :
    envFailC2 "nosym" = ModuleFile.noEntryPoint ∧
    PluginManager.new.load_single_plugin ["opt0", "opt1"] "nosym" envFailC2
      = RunResult.panicked "The _plugin_create symbol was not found."
          (PluginManager.mk [] [⟨"nosym"⟩], ["opt0", "opt1"]) :=
  ⟨rfl,
    failed_load_leaves_schema_unchanged PluginManager.new ["opt0", "opt1"]
      "nosym" envFailC2 rfl⟩

/-! ### Claim C4 -/

/-- The state mutation `process_option(&mut self, matchs)` performs on one
plugin (its options applied): the plugin with its state updated. -/
def apply_option (matchs : ArgMatches) (p : Plugin) : Plugin :=
  { p with state := (p.process_option p.state matchs).1 }

/-- Claim C4: `process_options` delivers the parsed options to the plugins in
load order; when every plugin before `pk` succeeds and `pk` fails, the run
panics with exactly one fatal message naming `pk`, the plugins before `pk`
have had their options applied (states updated), `pk` itself was invoked
(mutated) before its failure surfaced, and every plugin after `pk` is left
untouched — its `process_option` was never invoked. -/
theorem process_options_fatal_at_failure (pre : List Plugin) (pk : Plugin)
    (post : List Plugin) (libs : List Library) (matchs : ArgMatches) (e : Error)
    (hpre : ∀ p ∈ pre, (p.process_option p.state matchs).2 = Except.ok ())
    (hk : (pk.process_option pk.state matchs).2 = Except.error e) :
    (PluginManager.mk (pre ++ pk :: post) libs).process_options matchs
      = RunResult.panicked ("Could not process option for plugin " ++ pk.name)
          (PluginManager.mk
            (pre.map (apply_option matchs) ++ apply_option matchs pk :: post)
            libs) := by
  have hloop : ∀ pre2 : List Plugin,
      (∀ p ∈ pre2, (p.process_option p.state matchs).2 = Except.ok ()) →
      process_options_loop matchs (pre2 ++ pk :: post)
        = RunResult.panicked ("Could not process option for plugin " ++ pk.name)
            (pre2.map (apply_option matchs) ++ apply_option matchs pk :: post) := by
    intro pre2 hpre2
    induction pre2 with
    | nil =>
        simp only [List.nil_append, List.map_nil, process_options_loop, hk]
        rfl
    | cons p ps ih =>
        have hp : (p.process_option p.state matchs).2 = Except.ok () :=
          hpre2 p (List.mem_cons_self p ps)
        have hps := ih (fun q hq => hpre2 q (List.mem_cons_of_mem p hq))
        simp only [List.cons_append, process_options_loop, hp, List.append_eq,
          hps, List.map_cons, apply_option]
  simp only [PluginManager.process_options, hloop pre hpre]

/-- Witness for C4 at the spec's own test scenario: three plugins, the second
one fails; plugin 1's options are applied, plugin 3 is untouched, and the one
fatal message names plugin 2. -/
theorem process_options_fatal_at_failure_witness :
    (∀ p ∈ [Plugin.mk "p1" 0 (fun _ => []) (fun s _ => (s + 1, Except.ok ()))],
        (p.process_option p.state ([] : ArgMatches)).2 = Except.ok ()) ∧
    ((Plugin.mk "p2" 0 (fun _ => []) (fun s _ => (s + 7, Except.error "boom"))).process_option
        0 ([] : ArgMatches)).2 = Except.error "boom" ∧
    (PluginManager.mk
        [Plugin.mk "p1" 0 (fun _ => []) (fun s _ => (s + 1, Except.ok ())),
         Plugin.mk "p2" 0 (fun _ => []) (fun s _ => (s + 7, Except.error "boom")),
         Plugin.mk "p3" 0 (fun _ => []) (fun s _ => (s + 1, Except.ok ()))]
        []).process_options []
      = RunResult.panicked "Could not process option for plugin p2"
          (PluginManager.mk
            [Plugin.mk "p1" 1 (fun _ => []) (fun s _ => (s + 1, Except.ok ())),
             Plugin.mk "p2" 7 (fun _ => []) (fun s _ => (s + 7, Except.error "boom")),
             Plugin.mk "p3" 0 (fun _ => []) (fun s _ => (s + 1, Except.ok ()))]
            []) := by
  refine ⟨?_, rfl, ?_⟩
  · intro p hp
    simp only [List.mem_singleton] at hp
    subst hp
    rfl
  · have h := process_options_fatal_at_failure
      [Plugin.mk "p1" 0 (fun _ => []) (fun s _ => (s + 1, Except.ok ()))]
      (Plugin.mk "p2" 0 (fun _ => []) (fun s _ => (s + 7, Except.error "boom")))
      [Plugin.mk "p3" 0 (fun _ => []) (fun s _ => (s + 1, Except.ok ()))]
      [] [] "boom"
      (by intro p hp; simp only [List.mem_singleton] at hp; subst hp; rfl)
      rfl
    simpa [apply_option] using h

/-! ### Claims C5 and C6: the loading sequence -/

/-- Reference definition following the spec's words for `loadAll`: thread the
schema through the entry points strictly in list order — each entry point
receives exactly the schema returned by the previous one, the first receives
the initial schema — and collect the returned plugins in order.  Returns the
final schema and the plugin list. -/
def chain_schema (app : Schema) : List (Schema → Schema × Plugin) → Schema × List Plugin
  | [] => (app, [])
  | entry :: entries =>
      ((chain_schema (entry app).1 entries).1,
        (entry app).2 :: (chain_schema (entry app).1 entries).2)

/-- Progress lemma for the loading loop: a prefix of paths that all resolve
to entry points is consumed by threading the schema through `chain_schema`
and appending the new plugins and libraries to the manager, after which the
loop continues on the remaining paths. -/
theorem load_plugins_loop_entries (env : String → ModuleFile)
    {good : List String} {es : List (Schema → Schema × Plugin)}
    (h : List.Forall₂ (fun path entry => env path = ModuleFile.withEntry entry) good es) :
    ∀ (app : Schema) (pm : PluginManager) (tail : List String),
      load_plugins_loop env app pm (good ++ tail)
        = load_plugins_loop env (chain_schema app es).1
            (PluginManager.mk (pm.plugins ++ (chain_schema app es).2)
              (pm.loaded_libraries ++ good.map (fun q => ⟨q⟩)))
            tail := by
  induction h with
  | nil =>
      intro app pm tail
      simp [chain_schema]
  | cons hpe hrest ih =>
      intro app pm tail
      rename_i path entry paths entries
      rw [List.cons_append]
      simp only [load_plugins_loop, PluginManager.load_single_plugin, hpe]
      rw [ih]
      simp [chain_schema, List.append_assoc]

/-! ### Claim C5 -/

/-- Claim C5: `load_plugins` loads the modules strictly in list order, each
entry point receives exactly the schema returned by the previous one (the
initial schema for the first), the returned manager holds the plugins and
libraries in list order, and the final schema is the one produced by the
last module — i.e. the run equals the spec-side `chain_schema` threading. -/
theorem load_plugins_accumulates_schema (env : String → ModuleFile) (app : Schema)
    (paths : List String) (es : List (Schema → Schema × Plugin))
    (h : List.Forall₂ (fun path entry => env path = ModuleFile.withEntry entry) paths es) :
    load_plugins env app paths
      = RunResult.ok (Except.ok ((chain_schema app es).1,
          PluginManager.mk (chain_schema app es).2
            (paths.map (fun q => (⟨q⟩ : Library))))) := by
  unfold load_plugins
  have hloop := load_plugins_loop_entries env h app PluginManager.new []
  rw [List.append_nil] at hloop
  rw [hloop]
  rfl

/-- A concrete plugin used by the load-sequence witnesses. -/
def pluginA : Plugin :=
  Plugin.mk "A" 0 (fun _ => [⟨10⟩]) (fun s _ => (s, Except.ok ()))

/-- A second concrete plugin used by the load-sequence witnesses. -/
def pluginB : Plugin :=
  Plugin.mk "B" 0 (fun _ => [⟨20⟩]) (fun s _ => (s, Except.ok ()))

/-- Entry point of the concrete module at path "a": adds option "aOpt" and
returns `pluginA`. -/
def entryA : Schema → Schema × Plugin :=
  fun app => (app ++ ["aOpt"], pluginA)

/-- Entry point of the concrete module at path "b": adds option "bOpt" and
returns `pluginB`. -/
def entryB : Schema → Schema × Plugin :=
  fun app => (app ++ ["bOpt"], pluginB)

/-- A concrete linker environment for the load-sequence witnesses: modules at
"a" and "b" load fine, the path "bad" cannot be opened, anything else opens
without the registration symbol. -/
def envDemo : String → ModuleFile :=
  fun path =>
    if path = "a" then .withEntry entryA
    else if path = "b" then .withEntry entryB
    else if path = "bad" then .cannotOpen
    else .noEntryPoint

/-- Witness for C5 at a concrete input: loading ["a", "b"] over `envDemo`
starting from schema ["init"] yields the schema extended by "aOpt" then
"bOpt", the plugins [A, B] in order, and the libraries in order. -/
theorem load_plugins_accumulates_schema_witness :
    List.Forall₂ (fun path entry => envDemo path = ModuleFile.withEntry entry)
        ["a", "b"] [entryA, entryB] ∧
    load_plugins envDemo ["init"] ["a", "b"]
      = RunResult.ok (Except.ok (["init", "aOpt", "bOpt"],
          PluginManager.mk [pluginA, pluginB] [⟨"a"⟩, ⟨"b"⟩])) := by
  refine ⟨List.Forall₂.cons rfl (List.Forall₂.cons rfl List.Forall₂.nil), ?_⟩
  have h := load_plugins_accumulates_schema envDemo ["init"] ["a", "b"]
    [entryA, entryB]
    (List.Forall₂.cons rfl (List.Forall₂.cons rfl List.Forall₂.nil))
  rw [h]
  rfl

/-! ### Claim C6 -/

/-- Claim C6: if loading the module at some position fails (cannot open, or
registration symbol missing), `load_plugins` aborts immediately: the run
panics there, the outcome is the same whatever paths follow the failing one
(no later path is ever opened or has its entry point invoked), and the
modules loaded before the failure are not rolled back — they are still in
the manager's plugin and library lists in the panic state (the library of a
module that opened but lacked the symbol is also already pushed). -/
theorem load_plugins_fail_fast (env : String → ModuleFile) (app : Schema)
    (good : List String) (bad : String) (rest : List String)
    (es : List (Schema → Schema × Plugin))
    (hgood : List.Forall₂ (fun path entry => env path = ModuleFile.withEntry entry) good es)
    (hbad : env bad = ModuleFile.cannotOpen ∨ env bad = ModuleFile.noEntryPoint) :
    (env bad = ModuleFile.cannotOpen →
      load_plugins env app (good ++ bad :: rest)
        = RunResult.panicked "Unable to load the plugin"
            (PluginManager.mk (chain_schema app es).2 (good.map (fun q => ⟨q⟩)),
              (chain_schema app es).1)) ∧
    (env bad = ModuleFile.noEntryPoint →
      load_plugins env app (good ++ bad :: rest)
        = RunResult.panicked "The _plugin_create symbol was not found."
            (PluginManager.mk (chain_schema app es).2
                (good.map (fun q => ⟨q⟩) ++ [⟨bad⟩]),
              (chain_schema app es).1)) ∧
    load_plugins env app (good ++ bad :: rest) = load_plugins env app (good ++ [bad]) := by
  have h1 := load_plugins_loop_entries env hgood app PluginManager.new (bad :: rest)
  have h2 := load_plugins_loop_entries env hgood app PluginManager.new [bad]
  refine ⟨fun hc => ?_, fun hn => ?_, ?_⟩
  · unfold load_plugins
    rw [h1]
    simp [load_plugins_loop, PluginManager.load_single_plugin, hc, PluginManager.new]
  · unfold load_plugins
    rw [h1]
    simp [load_plugins_loop, PluginManager.load_single_plugin, hn, PluginManager.new]
  · unfold load_plugins
    rw [h1, h2]
    cases hbad with
    | inl hc => simp [load_plugins_loop, PluginManager.load_single_plugin, hc]
    | inr hn => simp [load_plugins_loop, PluginManager.load_single_plugin, hn]

/-- Witness for C6 at a concrete input: loading ["a", "bad", "b"] over
`envDemo` panics at "bad" with module "a" still loaded (its plugin and
library retained, schema extended by "a"), and the outcome is identical to
loading ["a", "bad"] — the trailing "b" is never touched. -/
theorem load_plugins_fail_fast_witness :
    (envDemo "bad" = ModuleFile.cannotOpen ∨ envDemo "bad" = ModuleFile.noEntryPoint) ∧
    load_plugins envDemo ["init"] ["a", "bad", "b"]
      = RunResult.panicked "Unable to load the plugin"
          (PluginManager.mk [pluginA] [⟨"a"⟩], ["init", "aOpt"]) ∧
    load_plugins envDemo ["init"] ["a", "bad", "b"]
      = load_plugins envDemo ["init"] ["a", "bad"] := by
  have h := load_plugins_fail_fast envDemo ["init"] ["a"] "bad" ["b"] [entryA]
    (List.Forall₂.cons rfl List.Forall₂.nil) (Or.inl rfl)
  exact ⟨Or.inl rfl, h.1 rfl, h.2.2⟩

/-! ### Claim C7 -/

/-- The manager state observable after a `process_options` run, whether it
panicked or returned. -/
def po_result_manager
    (r : RunResult PluginManager (PluginManager × Except Error Unit)) :
    PluginManager :=
  match r with
  | .panicked _ st => st
  | .ok (st, _) => st

/-- The manager state observable after a `load_single_plugin` run, whether
it panicked or returned. -/
def load_result_manager
    (r : RunResult (PluginManager × Schema) (PluginManager × Except Error Schema)) :
    PluginManager :=
  match r with
  | .panicked _ st => st.1
  | .ok (st, _) => st

/-- The plugin list observable after a `process_options_loop` run. -/
def loop_result_plugins (r : RunResult (List Plugin) (List Plugin)) : List Plugin :=
  match r with
  | .panicked _ l => l
  | .ok l => l

/-- Two plugin values are the same trait-object handle: identical except for
the interior state that `process_option(&mut self, ..)` may update. -/
def same_plugin_handle (p q : Plugin) : Prop :=
  p.name = q.name ∧ p.get_worker_specs = q.get_worker_specs ∧
    p.process_option = q.process_option

/-- `same_plugin_handle` relates every list to itself. -/
theorem forall₂_same_plugin_handle_refl (l : List Plugin) :
    List.Forall₂ same_plugin_handle l l := by
  induction l with
  | nil => exact List.Forall₂.nil
  | cons p rest ih => exact List.Forall₂.cons ⟨rfl, rfl, rfl⟩ ih

/-- The option-dispatch loop keeps every plugin handle: the resulting list is
the input list with, at most, interior states updated. -/
theorem process_options_loop_keeps_handles (matchs : ArgMatches) (ps : List Plugin) :
    List.Forall₂ same_plugin_handle ps (loop_result_plugins (process_options_loop matchs ps)) := by
  induction ps with
  | nil => exact List.Forall₂.nil
  | cons p rest ih =>
      unfold process_options_loop
      cases h : (p.process_option p.state matchs).2 with
      | error e =>
          simp only [loop_result_plugins]
          exact List.Forall₂.cons ⟨rfl, rfl, rfl⟩ (forall₂_same_plugin_handle_refl rest)
      | ok u =>
          cases h2 : process_options_loop matchs rest with
          | panicked msg sts =>
              rw [h2] at ih
              simp only [loop_result_plugins] at ih ⊢
              exact List.Forall₂.cons ⟨rfl, rfl, rfl⟩ ih
          | ok sts =>
              rw [h2] at ih
              simp only [loop_result_plugins] at ih ⊢
              exact List.Forall₂.cons ⟨rfl, rfl, rfl⟩ ih

/-- Claim C7: no operation of the `PluginManager` ever removes a loaded
module record or a `Plugin` handle from the manager's lists.  `build` takes
the manager immutably and touches nothing; `process_options` (even when it
panics mid-dispatch) leaves the library list untouched and keeps every
plugin handle, updating at most interior plugin state; `load_single_plugin`
(the only operation `load_plugins` composes) only ever appends to the plugin
and library lists, in every outcome including the panicking ones. -/
theorem plugin_manager_never_removes (pm : PluginManager) (matchs : ArgMatches)
    (app : Schema) (path : String) (env : String → ModuleFile) :
    (po_result_manager (pm.process_options matchs)).loaded_libraries
        = pm.loaded_libraries ∧
    List.Forall₂ same_plugin_handle pm.plugins
        (po_result_manager (pm.process_options matchs)).plugins ∧
    (∃ ts, (load_result_manager (pm.load_single_plugin app path env)).plugins
        = pm.plugins ++ ts) ∧
    (∃ ts, (load_result_manager (pm.load_single_plugin app path env)).loaded_libraries
        = pm.loaded_libraries ++ ts) := by
  refine ⟨?_, ?_, ?_, ?_⟩
  · unfold PluginManager.process_options
    cases h : process_options_loop matchs pm.plugins <;> rfl
  · have hk := process_options_loop_keeps_handles matchs pm.plugins
    unfold PluginManager.process_options
    cases h : process_options_loop matchs pm.plugins with
    | panicked msg sts =>
        rw [h] at hk
        simpa [loop_result_plugins, po_result_manager] using hk
    | ok sts =>
        rw [h] at hk
        simpa [loop_result_plugins, po_result_manager] using hk
  · cases h : env path with
    | cannotOpen =>
        exact ⟨[], by simp [PluginManager.load_single_plugin, h, load_result_manager]⟩
    | noEntryPoint =>
        exact ⟨[], by simp [PluginManager.load_single_plugin, h, load_result_manager]⟩
    | withEntry entry =>
        exact ⟨[(entry app).2],
          by simp [PluginManager.load_single_plugin, h, load_result_manager]⟩
  · cases h : env path with
    | cannotOpen =>
        exact ⟨[], by simp [PluginManager.load_single_plugin, h, load_result_manager]⟩
    | noEntryPoint =>
        exact ⟨[⟨path⟩], by simp [PluginManager.load_single_plugin, h, load_result_manager]⟩
    | withEntry entry =>
        exact ⟨[⟨path⟩], by simp [PluginManager.load_single_plugin, h, load_result_manager]⟩

/-! ### Claim C8 -/

/-- Claim C8: the entry point generated by the `declare_plugin!` registration
helper returns exactly the pair (input schema augmented with the module's
declared option set, the plugin newly built by one call of the supplied
constructor, boxed behind the `Plugin` capability); and loading a module
whose `_plugin_create` is such a generated entry point appends exactly that
constructed plugin to the manager and hands the augmented schema back. -/
theorem declare_plugin_generated_entry (constructor : Unit → Plugin)
    (augment_args : Schema → Schema) (app : Schema) (pm : PluginManager)
    (path : String) (env : String → ModuleFile) :
    declare_plugin constructor augment_args app = (augment_args app, constructor ()) ∧
    (env path = ModuleFile.withEntry (declare_plugin constructor augment_args) →
      pm.load_single_plugin app path env
        = RunResult.ok
            (PluginManager.mk (pm.plugins ++ [constructor ()])
                (pm.loaded_libraries ++ [⟨path⟩]),
              Except.ok (augment_args app))) := by
  refine ⟨rfl, fun h => ?_⟩
  simp only [PluginManager.load_single_plugin, h, declare_plugin]

/-- A concrete linker environment for the C8 witness: the module at "m"
registers through the `declare_plugin!` helper with a constructor returning
`pluginB` and an option set adding "bArgs". -/
def envDecl : String → ModuleFile :=
  fun path =>
    if path = "m"
    then .withEntry (declare_plugin (fun _ => pluginB) (fun app => app ++ ["bArgs"]))
    else .cannotOpen

/-- Witness for C8 at a concrete input: loading "m" over `envDecl` appends
`pluginB` and returns the schema augmented with "bArgs". -/
theorem declare_plugin_generated_entry_witness :
    declare_plugin (fun _ => pluginB) (fun app => app ++ ["bArgs"]) ["init"]
        = (["init", "bArgs"], pluginB) ∧
    envDecl "m"
        = ModuleFile.withEntry (declare_plugin (fun _ => pluginB) (fun app => app ++ ["bArgs"])) ∧
    PluginManager.new.load_single_plugin ["init"] "m" envDecl
        = RunResult.ok (PluginManager.mk [pluginB] [⟨"m"⟩], Except.ok ["init", "bArgs"]) :=
  ⟨(declare_plugin_generated_entry (fun _ => pluginB) (fun app => app ++ ["bArgs"])
      ["init"] PluginManager.new "m" envDecl).1,
    rfl,
    (declare_plugin_generated_entry (fun _ => pluginB) (fun app => app ++ ["bArgs"])
      ["init"] PluginManager.new "m" envDecl).2 rfl⟩
